import Mathlib

/-!
Verification development for the gdb-server orchestration layer of the
`rr` record/replay debugger (`src/GdbServer.h`).

The repository ships only the header `GdbServer.h`: it declares the data
members (`target`, `session`, `debugger_restart_checkpoint`, `checkpoints`,
`diversion_session`, `diversion_refcount`) and the private operations
(`maybe_process_magic_command`, `maybe_connect_debugger`,
`maybe_restart_session`, `divert`, `diverter_process_debugger_requests`,
`get_checkpoint`, `delete_checkpoint`, `serve_replay`), each with a
documentation comment, but the bodies live in a `.cc` file that is not
part of the source tree.  The data model below is embedded from the
header; the operation bodies are modelled from the specification
(`spec.md`) and the header's own documentation comments, as noted on each
definition.

Machine integers (`pid_t`, `TraceFrame::Time`, checkpoint ids) are
modelled as `Nat`/`Int`; overflow plays no role in any claim considered
here.
-/

set_option autoImplicit false

/-- The Session Target configuration, embedded from `GdbServer::Target`
(`GdbServer.h` lines 18-26): target pid (0 = first process), a flag
requiring exec() before attaching, and a minimum elapsed-event threshold
before attaching. -/
structure Target where
  pid : Nat
  require_exec : Bool
  event : Nat
  deriving DecidableEq

/-- The default constructor `Target() : pid(0), require_exec(true), event(0)`
from `GdbServer.h` line 19. -/
def Target.default : Target :=
  { pid := 0, require_exec := true, event := 0 }

/-- Modelled from the spec: the observable state of a Replay Session.
The replay engine itself is an external collaborator (spec §6) whose
implementation is not under src; we keep its observable state abstract as
an elapsed-event counter (`elapsed_event_count`), an exec-completed flag
(used by the attach deferral of spec §4.3), and an abstract memory map. -/
structure ReplaySession where
  elapsed : Nat
  execed : Bool
  memory : List (Nat × Nat)
  deriving DecidableEq

/-- Modelled from the spec: `clone() -> handle` of the replay engine
(spec §6).  Under the value semantics of the shallow embedding a clone is
simply the value itself; the clone and the original share no mutable
state afterwards. -/
def ReplaySession.clone (s : ReplaySession) : ReplaySession := s

/-- Modelled from the spec: `advance_one_event() -> status` of the replay
engine (spec §6); advancing mutates the replay state by moving the
elapsed-event counter forward. -/
def ReplaySession.advance_one_event (s : ReplaySession) : ReplaySession :=
  { s with elapsed := s.elapsed + 1 }

/-- Modelled from the spec: the observable state of a Diversion Session, a
mutable execution forked from a Replay Session snapshot (spec §3).  The
diversion execution engine is an external collaborator; we keep the
initial task and an abstract memory map. -/
structure DiversionSession where
  task : Nat
  memory : List (Nat × Nat)
  deriving DecidableEq

/-- Modelled from the spec: `fork_from(replay_handle, task_ref)` of the
diversion engine (spec §6): the diversion starts from a snapshot of the
replay state and never shares mutable state with it. -/
def DiversionSession.fork_from (r : ReplaySession) (task : Nat) : DiversionSession :=
  { task := task, memory := r.memory }

/-- Lookup in an association list with `Nat` keys (abstract memory). -/
def memGet : List (Nat × Nat) → Nat → Option Nat
  | [], _ => none
  | (k, v) :: rest, a => if k = a then some v else memGet rest a

/-- Update of an association list with `Nat` keys (abstract memory). -/
def memSet : List (Nat × Nat) → Nat → Nat → List (Nat × Nat)
  | [], a, v => [(a, v)]
  | (k, w) :: rest, a, v =>
    if k = a then (a, v) :: rest else (k, w) :: memSet rest a v

/-- Debugger requests, embedded from the request kinds the header's
documentation distinguishes: resume-execution requests (the exit point of
a diversion, `GdbServer.h` lines 92-112), memory writes (the carrier of
magic commands, lines 62-66), reads, restart requests (line 86, targeting
either the restart anchor or a stored checkpoint), detach, and a generic
remainder. -/
inductive GdbRequest where
  | resumeExec (step : Bool)
  | writeMem (addr val : Nat)
  | readMem (addr : Nat)
  | restart (checkpoint : Option Int)
  | detach
  | other
  deriving DecidableEq

/-- Protocol replies: positive, value-carrying, or negative (error). -/
inductive GdbReply where
  | ok
  | value (v : Nat)
  | err
  deriving DecidableEq

/-- Modelled from the spec: which requests the diversion session resolves
by itself.  Per the header comment on `divert` (`GdbServer.h` lines
101-112) the diversion ends at the first request it does not handle — a
resume-execution request; per spec §4.4 rule 3 a restart tears down any
active diversion unconditionally, and per spec §5 a detach does too, so
neither is resolved inside the diversion. -/
def GdbRequest.handled_by_diversion : GdbRequest → Bool
  | .resumeExec _ => false
  | .restart _ => false
  | .detach => false
  | _ => true

/-- Lookup in the checkpoint map (the `std::map<int, ReplaySession::shr_ptr>`
of `GdbServer.h` line 137), embedded as an association list with `Int`
keys; `none` plays the role of `nullptr`. -/
def checkpointsGet : List (Int × ReplaySession) → Int → Option ReplaySession
  | [], _ => none
  | (k, v) :: rest, checkpoint_id =>
    if k = checkpoint_id then some v else checkpointsGet rest checkpoint_id

/-- Erasure from the checkpoint map: removes every binding of the given id
(on the unique-key states reachable through `checkpointsSet` this is
`std::map::erase`). -/
def checkpointsErase : List (Int × ReplaySession) → Int → List (Int × ReplaySession)
  | [], _ => []
  | (k, v) :: rest, checkpoint_id =>
    if k = checkpoint_id then checkpointsErase rest checkpoint_id
    else (k, v) :: checkpointsErase rest checkpoint_id

/-- Insert-or-assign on the checkpoint map (`checkpoints[id] = clone`):
the new binding shadows and removes any previous binding of the id. -/
def checkpointsSet (l : List (Int × ReplaySession)) (checkpoint_id : Int)
    (v : ReplaySession) : List (Int × ReplaySession) :=
  (checkpoint_id, v) :: checkpointsErase l checkpoint_id

/-- The server state, embedded from the data members of `GdbServer`
(`GdbServer.h` lines 125-143). -/
structure GdbServer where
  target : Target
  debugger_active : Bool
  session : ReplaySession
  debugger_restart_checkpoint : Option ReplaySession
  checkpoints : List (Int × ReplaySession)
  diversion_session : Option DiversionSession
  diversion_refcount : Int
  deriving DecidableEq

/-- Modelled from the spec: the body of `GdbServer::get_checkpoint` is not
under src; the header comment (`GdbServer.h` lines 114-118) and spec §4.1
specify: return the checkpoint stored as `checkpoint_id`, or absent if
there is none. -/
def GdbServer.get_checkpoint (st : GdbServer) (checkpoint_id : Int) :
    Option ReplaySession :=
  checkpointsGet st.checkpoints checkpoint_id

/-- Modelled from the spec: the body of `GdbServer::delete_checkpoint` is
not under src; the header comment (`GdbServer.h` lines 119-123) and spec
§4.1 specify: delete the checkpoint stored as `checkpoint_id` if it
exists, or do nothing if it does not. -/
def GdbServer.delete_checkpoint (st : GdbServer) (checkpoint_id : Int) : GdbServer :=
  { st with checkpoints := checkpointsErase st.checkpoints checkpoint_id }

/-- Modelled from the spec: `save(id, session)` of the Checkpoint Store
(spec §4.1) — the saving code is not under src.  Stores a clone of the
current replay session under the id; overwriting an existing id replaces
it. -/
def GdbServer.save_checkpoint (st : GdbServer) (checkpoint_id : Int) : GdbServer :=
  { st with checkpoints := checkpointsSet st.checkpoints checkpoint_id st.session.clone }

/-- Mutation of the live replay session in place (the shallow-embedding
counterpart of calling a mutating replay-engine operation through the
`session` member while the checkpoint map keeps its own clones). -/
def GdbServer.modify_session (st : GdbServer) (f : ReplaySession → ReplaySession) :
    GdbServer :=
  { st with session := f st.session }

/-- A concrete replay state used by the witnesses. -/
def sessionEx : ReplaySession := { elapsed := 5, execed := true, memory := [] }

/-- A concrete server state used by the witnesses. -/
def serverEx : GdbServer :=
  { target := Target.default
    debugger_active := false
    session := sessionEx
    debugger_restart_checkpoint := none
    checkpoints := []
    diversion_session := none
    diversion_refcount := 0 }

example : (serverEx.save_checkpoint 1).get_checkpoint 1 = some sessionEx := by decide
example : serverEx.get_checkpoint 1 = none := by decide

/-- The spec-side classifier of magic writes: a request is a magic write
exactly when it is a memory write whose address the injected recognition
policy accepts (spec §4.4 rule 1 and §9: the address convention is an
injected policy, not hard-coded). -/
def is_magic_write (isMagic : Nat → Bool) : GdbRequest → Bool
  | .writeMem addr _ => isMagic addr
  | _ => false

/-- Modelled from the spec: the body of `GdbServer::maybe_process_magic_command`
is not under src; the header comment (`GdbServer.h` lines 62-66) and spec
§4.4 rule 1 specify: if the request is a magic-write command, interpret it
as a control command (e.g. triggering a checkpoint, whose id is carried by
the written value) and return true; otherwise do nothing and return false.
The write is never forwarded to replay or diversion memory. -/
def maybe_process_magic_command (isMagic : Nat → Bool) (st : GdbServer)
    (req : GdbRequest) : Bool × GdbServer :=
  match req with
  | .writeMem addr val =>
    if isMagic addr then (true, st.save_checkpoint (Int.ofNat val)) else (false, st)
  | _ => (false, st)

/-- Modelled from the spec: the body of `GdbServer::maybe_restart_session`
is not under src; spec §4.4 rule 3 and §7 taxonomy (2) specify: a restart
request resolves its target to either a stored checkpoint (when an id is
given) or the restart anchor; on success the current replay session is
replaced by a fresh clone of the resolved source; when the target does not
exist the request is answered with a negative reply and no state is
mutated.  Non-restart requests are ignored.  (Teardown of an active
diversion happens earlier, when the restart request exits the diversion
loop; see `GdbServer.divert`.) -/
def GdbServer.maybe_restart_session (st : GdbServer) (req : GdbRequest) :
    GdbServer × GdbReply :=
  match req with
  | .restart (some checkpoint_id) =>
    match st.get_checkpoint checkpoint_id with
    | some cp => ({ st with session := cp.clone }, .ok)
    | none => (st, .err)
  | .restart none =>
    match st.debugger_restart_checkpoint with
    | some anchor => ({ st with session := anchor.clone }, .ok)
    | none => (st, .err)
  | _ => (st, .ok)

/-- Modelled from the spec: how the diversion answers one request from its
own state (spec §4.2, Active → Active: each request is answered from the
diversion's state, never from the Replay Session).  Writes update the
diversion memory; reads answer from it; the remaining handled requests are
answered positively without touching replay state. -/
def DiversionSession.handle (d : DiversionSession) (req : GdbRequest) :
    DiversionSession × GdbReply :=
  match req with
  | .writeMem addr val => ({ d with memory := memSet d.memory addr val }, .ok)
  | .readMem addr => (d, .value ((memGet d.memory addr).getD 0))
  | _ => (d, .ok)

/-- Observable events of a diversion lifetime, used to state the temporal
claims: creation (refcount 0 → 1), a request dispatched to the live
diversion, and teardown (refcount → 0, diversion destroyed). -/
inductive DivEv where
  | enter
  | handled (req : GdbRequest)
  | teardown
  deriving DecidableEq

/-- The diversion refcount after an event, given the refcount before it
(`diversion_refcount`, `GdbServer.h` lines 141-143): entering sets it to
1, a handled request keeps it, teardown drops it to 0. -/
def DivEv.refcountAfter : Int → DivEv → Int
  | _, .enter => 1
  | r, .handled _ => r
  | _, .teardown => 0

/-- Whether a diversion event is the teardown event. -/
def DivEv.isTeardown : DivEv → Bool
  | .teardown => true
  | _ => false

/-- Modelled from the spec: the body of
`GdbServer::diverter_process_debugger_requests` is not under src; the
header comment (`GdbServer.h` lines 92-100) and spec §4.2 specify: process
debugger requests inside the diversion session until a request the
diversion does not itself resolve is received; that request is returned to
the caller.  Returns the final diversion state, the first unresolved
request (or `none` when the request stream ends first, i.e. the client
detaches), and the trace of requests dispatched to the diversion. -/
def diverter_process_debugger_requests (d : DiversionSession) :
    List GdbRequest → DiversionSession × Option GdbRequest × List DivEv
  | [] => (d, none, [])
  | req :: rest =>
    if req.handled_by_diversion then
      let r := diverter_process_debugger_requests (d.handle req).1 rest
      (r.1, r.2.1, DivEv.handled req :: r.2.2)
    else (d, some req, [])

/-- Modelled from the spec: the body of `GdbServer::divert` is not under
src; the header comment (`GdbServer.h` lines 101-112) and spec §4.2
specify: create a new diversion session using the current replay session
as a template (the replay session is not mutated), with refcount 1; run
the diversion loop on the incoming requests; when the loop yields (resume,
restart or detach, or the stream ends) the refcount returns to 0 and the
diversion is torn down; return the post-teardown server state, the first
request not handled by the diversion, and the event trace of the
lifetime. -/
def GdbServer.divert (st : GdbServer) (task : Nat) (reqs : List GdbRequest) :
    GdbServer × Option GdbRequest × List DivEv :=
  let r := diverter_process_debugger_requests (DiversionSession.fork_from st.session task) reqs
  ({ st with diversion_session := none, diversion_refcount := 0 },
   r.2.1, DivEv.enter :: r.2.2 ++ [DivEv.teardown])

/-- Modelled from the spec: `should_attach(session_state, target)` of the
Debugger Connection Lifecycle (spec §4.3); the body of
`GdbServer::maybe_connect_debugger` is not under src.  Attachment waits
until the target has completed exec() when `require_exec` is set, and
additionally until the elapsed-event counter has reached `target.event`. -/
def should_attach (s : ReplaySession) (t : Target) : Bool :=
  (!t.require_exec || s.execed) && decide (t.event ≤ s.elapsed)

/-- Observable events of the replay driver loop: the attach check
(recording the decision and the replay state it was evaluated against) and
the advancement of the replay session by one scheduled event (recording
the state being advanced from). -/
inductive LoopEv where
  | check (attached : Bool) (s : ReplaySession)
  | advance (s : ReplaySession)

/-- Modelled from the spec: the body of `GdbServer::serve_replay` is not
under src; spec §4.5 and the header comment on `maybe_connect_debugger`
(`GdbServer.h` lines 77-85: it must be called before scheduling the task
for the next event) specify each iteration as: (a) evaluate the attach
check on the current replay state, (b) if attached, drain the pending
client requests through the dispatcher (abstracted here as `drain`),
(c) advance the replay session by exactly one scheduled event.  `fuel`
bounds the number of iterations (the recorded timeline is finite);
the emitted trace records the order of checks and advances. -/
def serve_replay (t : Target) (drain : ReplaySession → ReplaySession) :
    Nat → ReplaySession → List LoopEv
  | 0, _ => []
  | fuel + 1, s =>
    LoopEv.check (should_attach s t) s ::
    LoopEv.advance (if should_attach s t then drain s else s) ::
    serve_replay t drain fuel ((if should_attach s t then drain s else s).advance_one_event)

/-- A concrete target used by the witnesses. -/
def targetEx : Target := { pid := 0, require_exec := true, event := 3 }

theorem checkpointsGet_erase_self (l : List (Int × ReplaySession)) (checkpoint_id : Int) :
    checkpointsGet (checkpointsErase l checkpoint_id) checkpoint_id = none := by
  induction l with
  | nil => rfl
  | cons p rest ih =>
    obtain ⟨k, v⟩ := p
    by_cases hk : k = checkpoint_id <;> simp [checkpointsErase, checkpointsGet, hk, ih]

theorem checkpointsErase_of_get_none (l : List (Int × ReplaySession)) (checkpoint_id : Int)
    (h : checkpointsGet l checkpoint_id = none) : checkpointsErase l checkpoint_id = l := by
  induction l with
  | nil => rfl
  | cons p rest ih =>
    obtain ⟨k, v⟩ := p
    by_cases hk : k = checkpoint_id
    · simp [checkpointsGet, hk] at h
    · simp [checkpointsGet, hk] at h
      simp [checkpointsErase, hk, ih h]

theorem checkpointsGet_set_self (l : List (Int × ReplaySession)) (checkpoint_id : Int)
    (v : ReplaySession) :
    checkpointsGet (checkpointsSet l checkpoint_id v) checkpoint_id = some v := by
  simp [checkpointsSet, checkpointsGet]

/-- C2: `save(id, session)` stores a clone and a later save with the same
id replaces it; `get(id)` after `save(id, session)` returns a clone whose
observable state equals the session's state at save time, and mutating the
live replay session after the save (by any mutation `f`) does not change
what `get(id)` returns. -/
theorem claim_C2_checkpoints_frozen (st : GdbServer) (checkpoint_id : Int)
    (f : ReplaySession → ReplaySession) :
    (st.save_checkpoint checkpoint_id).get_checkpoint checkpoint_id = some st.session
    ∧ ((st.save_checkpoint checkpoint_id).modify_session f).get_checkpoint checkpoint_id
        = some st.session
    ∧ (((st.save_checkpoint checkpoint_id).modify_session f).save_checkpoint
        checkpoint_id).get_checkpoint checkpoint_id = some (f st.session) := by
  refine ⟨?_, ?_, ?_⟩ <;>
    simp [GdbServer.save_checkpoint, GdbServer.get_checkpoint, GdbServer.modify_session,
      ReplaySession.clone, checkpointsGet_set_self]

/-- C8: `get(id)` returns absent whenever no checkpoint is stored under
the id — in particular after `delete(id)` — and `delete(id)` on a missing
id is a no-op that leaves the server (and so the Checkpoint Store)
unchanged. -/
theorem claim_C8_get_absent_delete_idempotent (st : GdbServer) (checkpoint_id : Int) :
    (st.delete_checkpoint checkpoint_id).get_checkpoint checkpoint_id = none
    ∧ (st.get_checkpoint checkpoint_id = none →
        st.delete_checkpoint checkpoint_id = st) := by
  constructor
  · simp [GdbServer.delete_checkpoint, GdbServer.get_checkpoint, checkpointsGet_erase_self]
  · intro h
    simp only [GdbServer.delete_checkpoint,
      checkpointsErase_of_get_none st.checkpoints checkpoint_id h]

theorem claim_C8_witness :
    (serverEx.delete_checkpoint 1).get_checkpoint 1 = none
    ∧ serverEx.delete_checkpoint 1 = serverEx :=
  ⟨(claim_C8_get_absent_delete_idempotent serverEx 1).1,
   (claim_C8_get_absent_delete_idempotent serverEx 1).2 (by decide)⟩

/-- C3: a restart request whose target resolves to a checkpoint id that is
not stored (never saved, or deleted) yields a negative protocol reply and
performs no state mutation: the server state after the failed restart —
in particular the current replay session — equals the state before it. -/
theorem claim_C3_restart_missing_checkpoint (st : GdbServer) (checkpoint_id : Int)
    (h : st.get_checkpoint checkpoint_id = none) :
    st.maybe_restart_session (.restart (some checkpoint_id)) = (st, .err) := by
  simp [GdbServer.maybe_restart_session, h]

theorem claim_C3_witness :
    serverEx.get_checkpoint 7 = none
    ∧ serverEx.maybe_restart_session (.restart (some 7)) = (serverEx, .err) :=
  ⟨by decide, claim_C3_restart_missing_checkpoint serverEx 7 (by decide)⟩

/-- C9: `maybe_process_magic_command` returns true exactly on requests
recognized as magic writes; when it returns false it does nothing (the
state is unchanged and the request falls through to normal handling); and
even when it intercepts a magic write, the request is never forwarded to
replay or diversion state (the replay session and the diversion session
are unchanged). -/
theorem claim_C9_magic_command (isMagic : Nat → Bool) (st : GdbServer) (req : GdbRequest) :
    (maybe_process_magic_command isMagic st req).1 = is_magic_write isMagic req
    ∧ ((maybe_process_magic_command isMagic st req).1 = false →
        (maybe_process_magic_command isMagic st req).2 = st)
    ∧ (maybe_process_magic_command isMagic st req).2.session = st.session
    ∧ (maybe_process_magic_command isMagic st req).2.diversion_session
        = st.diversion_session := by
  cases req with
  | writeMem addr val =>
    by_cases h : isMagic addr <;>
      simp [maybe_process_magic_command, is_magic_write, GdbServer.save_checkpoint, h]
  | _ => simp [maybe_process_magic_command, is_magic_write]

theorem claim_C9_witness :
    (maybe_process_magic_command (fun a => decide (a = 42)) serverEx
      (.writeMem 42 3)).1 = is_magic_write (fun a => decide (a = 42)) (.writeMem 42 3)
    ∧ (maybe_process_magic_command (fun a => decide (a = 42)) serverEx (.readMem 0)).2
        = serverEx :=
  ⟨(claim_C9_magic_command (fun a => decide (a = 42)) serverEx (.writeMem 42 3)).1,
   (claim_C9_magic_command (fun a => decide (a = 42)) serverEx (.readMem 0)).2.1 (by decide)⟩

/-- C10: a default-constructed Session Target has pid 0 (first process),
require_exec true and event 0, and with the default target the attach
check succeeds exactly when the target process has completed exec() — so a
server constructed with the default target defers attachment until exec
rather than attaching immediately. -/
theorem claim_C10_default_target (s : ReplaySession) :
    Target.default.pid = 0 ∧ Target.default.require_exec = true ∧ Target.default.event = 0
    ∧ should_attach s Target.default = s.execed := by
  refine ⟨rfl, rfl, rfl, ?_⟩
  simp [should_attach, Target.default]

/-- C7: `should_attach` returns true only when both deferral conditions
are met: when `require_exec` is set the target has completed exec(), and
the recorded-event counter has reached `target.event`.  (In particular,
with require_exec true and the exec not yet performed, attachment is
deferred no matter how many events have elapsed — Scenario B is the
contrapositive at event 0.) -/
theorem claim_C7_attach_deferral (s : ReplaySession) (t : Target)
    (h : should_attach s t = true) :
    (t.require_exec = true → s.execed = true) ∧ t.event ≤ s.elapsed := by
  simp only [should_attach, Bool.and_eq_true, Bool.or_eq_true, Bool.not_eq_true',
    decide_eq_true_eq] at h
  obtain ⟨h1, h2⟩ := h
  refine ⟨?_, h2⟩
  intro hre
  rcases h1 with h1 | h1
  · rw [hre] at h1
    exact absurd h1 (by simp)
  · exact h1

theorem claim_C7_witness :
    should_attach sessionEx targetEx = true
    ∧ ((targetEx.require_exec = true → sessionEx.execed = true)
        ∧ targetEx.event ≤ sessionEx.elapsed) :=
  ⟨by decide, claim_C7_attach_deferral sessionEx targetEx (by decide)⟩

/-- Closed form of the diversion loop: it folds `DiversionSession.handle`
over the longest handled-by-diversion head of the request stream, returns
the first unhandled request (if any), and records exactly the handled head
in the event trace. -/
theorem diverter_loop_eq (d : DiversionSession) (reqs : List GdbRequest) :
    diverter_process_debugger_requests d reqs
      = ((reqs.takeWhile GdbRequest.handled_by_diversion).foldl
           (fun a q => (a.handle q).1) d,
         (reqs.dropWhile GdbRequest.handled_by_diversion).head?,
         (reqs.takeWhile GdbRequest.handled_by_diversion).map DivEv.handled) := by
  induction reqs generalizing d with
  | nil => rfl
  | cons q rest ih =>
    by_cases hq : q.handled_by_diversion = true
    · simp [diverter_process_debugger_requests, hq, List.takeWhile_cons,
        List.dropWhile_cons, ih]
    · simp [diverter_process_debugger_requests, hq, List.takeWhile_cons,
        List.dropWhile_cons]

/-- C1: for every sequence of requests dispatched while the diversion is
active, the backing replay session is unchanged, every checkpoint
observation against the original replay session is unchanged, and the
restart anchor is unchanged — nothing that happens inside the diversion
mutates the state later observed via `get_checkpoint` or restart. -/
theorem claim_C1_diversion_isolation (st : GdbServer) (task : Nat)
    (reqs : List GdbRequest) (checkpoint_id : Int) :
    (st.divert task reqs).1.session = st.session
    ∧ (st.divert task reqs).1.get_checkpoint checkpoint_id
        = st.get_checkpoint checkpoint_id
    ∧ (st.divert task reqs).1.debugger_restart_checkpoint
        = st.debugger_restart_checkpoint :=
  ⟨rfl, rfl, rfl⟩

/-- C4: `divert` returns exactly the first request of the stream that the
diversion does not itself resolve (the head of the stream after dropping
the handled head), every earlier request is answered from the diversion's
state (the loop's final diversion state is the fold of the per-request
handler over exactly those requests), and the event trace records those
requests — and only those — as dispatched to the diversion. -/
theorem claim_C4_divert_first_unhandled (st : GdbServer) (task : Nat)
    (reqs : List GdbRequest) (d : DiversionSession) :
    (st.divert task reqs).2.1 = (reqs.dropWhile GdbRequest.handled_by_diversion).head?
    ∧ (diverter_process_debugger_requests d reqs).1
        = (reqs.takeWhile GdbRequest.handled_by_diversion).foldl
            (fun a q => (a.handle q).1) d
    ∧ (st.divert task reqs).2.2
        = DivEv.enter ::
            (reqs.takeWhile GdbRequest.handled_by_diversion).map DivEv.handled
            ++ [DivEv.teardown] := by
  refine ⟨?_, ?_, ?_⟩ <;> simp [GdbServer.divert, diverter_loop_eq]

theorem scanl_refcount_map (qs : List GdbRequest) :
    List.scanl DivEv.refcountAfter 1 (qs.map DivEv.handled ++ [DivEv.teardown])
      = List.replicate (qs.length + 1) 1 ++ [0] := by
  induction qs with
  | nil => rfl
  | cons q rest ih =>
    simp [List.scanl, DivEv.refcountAfter, ih, List.replicate_succ]

theorem countP_teardown_map (qs : List GdbRequest) :
    (qs.map DivEv.handled).countP DivEv.isTeardown = 0 := by
  induction qs with
  | nil => rfl
  | cons q rest ih => simp [List.countP_cons, DivEv.isTeardown, ih]

/-- C5: every diversion lifetime has the event shape
enter · handled* · teardown: the refcount trace is 0 → 1 → ... → 1 → 0
(exactly one rise from 0 and one return to 0), teardown occurs exactly
once and is the last event (so no request is dispatched to the diversion
after teardown), and after `divert` returns the refcount is 0 and the
diversion session is gone. -/
theorem claim_C5_refcount_lifecycle (st : GdbServer) (task : Nat)
    (reqs : List GdbRequest) :
    ∃ qs : List GdbRequest,
      (st.divert task reqs).2.2
        = DivEv.enter :: qs.map DivEv.handled ++ [DivEv.teardown]
      ∧ (∀ q ∈ qs, q.handled_by_diversion = true)
      ∧ ((st.divert task reqs).2.2).countP DivEv.isTeardown = 1
      ∧ List.scanl DivEv.refcountAfter 0 ((st.divert task reqs).2.2)
          = 0 :: List.replicate (qs.length + 1) 1 ++ [0]
      ∧ (st.divert task reqs).1.diversion_refcount = 0
      ∧ (st.divert task reqs).1.diversion_session = none := by
  refine ⟨reqs.takeWhile GdbRequest.handled_by_diversion, ?_, ?_, ?_, ?_, rfl, rfl⟩
  · simp [GdbServer.divert, diverter_loop_eq]
  · intro q hq
    exact List.mem_takeWhile_imp hq
  · simp [GdbServer.divert, diverter_loop_eq, List.countP_cons, List.countP_append,
      countP_teardown_map, DivEv.isTeardown]
  · simp [GdbServer.divert, diverter_loop_eq, List.scanl, DivEv.refcountAfter,
      scanl_refcount_map]

theorem claim_C5_witness :
    ∃ qs : List GdbRequest,
      (serverEx.divert 1 [GdbRequest.readMem 0, GdbRequest.resumeExec false]).2.2
        = DivEv.enter :: qs.map DivEv.handled ++ [DivEv.teardown]
      ∧ (∀ q ∈ qs, q.handled_by_diversion = true)
      ∧ ((serverEx.divert 1 [GdbRequest.readMem 0, GdbRequest.resumeExec false]).2.2).countP
          DivEv.isTeardown = 1
      ∧ List.scanl DivEv.refcountAfter 0
          ((serverEx.divert 1 [GdbRequest.readMem 0, GdbRequest.resumeExec false]).2.2)
          = 0 :: List.replicate (qs.length + 1) 1 ++ [0]
      ∧ (serverEx.divert 1 [GdbRequest.readMem 0, GdbRequest.resumeExec false]).1.diversion_refcount
          = 0
      ∧ (serverEx.divert 1 [GdbRequest.readMem 0, GdbRequest.resumeExec false]).1.diversion_session
          = none :=
  claim_C5_refcount_lifecycle serverEx 1 [GdbRequest.readMem 0, GdbRequest.resumeExec false]

/-- C6: in every iteration of the replay driver loop the attach check is
evaluated strictly before the replay engine advances: the k-th check event
in the loop trace records the attach decision computed from the very state
`sk` that the immediately following advance event then consumes (after at
most request draining, which happens only when attached) — the check is
never evaluated against a state that has already been advanced. -/
theorem claim_C6_check_before_advance (t : Target)
    (drain : ReplaySession → ReplaySession) (fuel k : Nat) (s : ReplaySession)
    (hk : k < fuel) :
    ∃ sk : ReplaySession,
      (serve_replay t drain fuel s).get? (2 * k)
        = some (LoopEv.check (should_attach sk t) sk)
      ∧ (serve_replay t drain fuel s).get? (2 * k + 1)
        = some (LoopEv.advance (if should_attach sk t then drain sk else sk)) := by
  induction k generalizing fuel s with
  | zero =>
    cases fuel with
    | zero => omega
    | succ m => exact ⟨s, by simp [serve_replay], by simp [serve_replay]⟩
  | succ k ih =>
    cases fuel with
    | zero => omega
    | succ m =>
      obtain ⟨sk, hc, ha⟩ :=
        ih m ((if should_attach s t then drain s else s).advance_one_event) (by omega)
      have h2 : 2 * (k + 1) = 2 * k + 1 + 1 := by ring
      have h3 : 2 * (k + 1) + 1 = 2 * k + 1 + 1 + 1 := by ring
      refine ⟨sk, ?_, ?_⟩
      · rw [h2]
        simpa [serve_replay] using hc
      · rw [h3]
        simpa [serve_replay] using ha

theorem claim_C6_witness :
    0 < 1 ∧ ∃ sk : ReplaySession,
      (serve_replay Target.default id 1 sessionEx).get? (2 * 0)
        = some (LoopEv.check (should_attach sk Target.default) sk)
      ∧ (serve_replay Target.default id 1 sessionEx).get? (2 * 0 + 1)
        = some (LoopEv.advance (if should_attach sk Target.default then id sk else sk)) :=
  ⟨by decide, claim_C6_check_before_advance Target.default id 1 0 sessionEx (by decide)⟩
